import Mathlib

/-!
Shallow embedding of `src/dripline/service.go` (package `dripline`, repository
project8/dripline-go).

The Go code drives an AMQP broker through the streadway/amqp client and
communicates across goroutines through Go channels.  The embedding makes the
effects explicit:

* broker calls and channel operations are recorded as `Event`s in the order
  the Go code performs them;
* the outcome of each fallible broker call is supplied by a small oracle
  structure (one Boolean or Option per call site), so that theorems can
  quantify over every combination of broker successes and failures;
* the mutable `AmqpService` struct is threaded as explicit state;
* Go `defer` statements are modelled by appending the deferred events in
  last-in-first-out order when the modelled function returns.

Functions keep the names of the Go functions they embed.  Code of the
repository that lives outside `src/` (the message module with
`DecodeAndHandle` and `PrepareReplyToRequest`) is modelled from the spec and
marked as such in its doc comment.
-/

namespace Dripline

/-- The four dripline message kinds (spec section 3, `MsgType`). -/
inductive MsgKind
  | request
  | reply
  | alert
  | info
deriving DecidableEq, Repr

/-- Fields of a dripline Request that service.go reads or writes
(`Target` is the routing key, `ReplyTo` is set by `SendRequest` to the
broker-assigned reply-queue name, `CorrId` is the correlation id). -/
structure Request where
  Target : String
  CorrId : String
  ReplyTo : String
deriving DecidableEq, Repr

/-- Fields of a dripline Reply that the claims touch: the routing target,
the correlation id, a numeric return code and a return message. -/
structure Reply where
  Target : String
  CorrId : String
  RetCode : Nat
  ReturnMsg : String
deriving DecidableEq, Repr

/-- A dripline Alert (payload irrelevant to the claims). -/
structure Alert where
  Target : String
  CorrId : String
deriving DecidableEq, Repr

/-- A dripline Info (payload irrelevant to the claims). -/
structure Info where
  Target : String
  CorrId : String
deriving DecidableEq, Repr

/-- Result of decoding a delivery: one of the four message kinds. -/
inductive Decoded
  | request (r : Request)
  | reply (r : Reply)
  | alert (a : Alert)
  | info (i : Info)
deriving DecidableEq, Repr

/-- Observable effects of the Go code, recorded in execution order.
Log events keep only their severity; broker calls carry the arguments the
claims mention.  `doneSignal`, `stopQueuePush` and the `push...` events are
sends on the corresponding Go channels. -/
inductive Event
  | dial
  | sleepSeconds (n : Nat)
  | logDebug
  | logInfo
  | logWarning
  | logError
  | logCritical
  | logNotice
  | doneSignal (b : Bool)
  | stopQueuePush (b : Bool)
  | brokerChannelOpen
  | queueDeclare (name : String)
  | queueBind (queue : String) (key : String) (exchange : String)
  | exchangeDeclare (name : String)
  | consume (queue : String)
  | cancelFeedRegistered
  | closeFeedRegistered
  | ackDelivery
  | pushInboundRequest (r : Request)
  | pushInboundAlert (a : Alert)
  | pushInboundInfo (i : Info)
  | pushOutboundRequest (r : Request)
  | pushOutboundReply (r : Reply)
  | pushOutboundAlert (a : Alert)
  | pushOutboundInfo (i : Info)
  | pushReplyChanFull (r : Reply)
  | publishRequest (key : String)
  | publishReply (key : String)
  | publishAlert (key : String)
  | publishInfo (key : String)
  | replyChannelClose
  | queueDelete (name : String)
  | channelClose
  | connectionClose
deriving DecidableEq, Repr

/-- The `AmqpReceiver` struct of service.go: queue name, subscription
counter and the live delivery-stream handle (`messageQueue`; a nil Go
channel before the first successful `Consume`, modelled as `none`). -/
structure AmqpReceiver where
  QueueName : String
  subscriptionCount : Nat
  messageQueue : Option Nat
deriving DecidableEq, Repr

/-- The `AmqpSender` struct of service.go (the three exchange names; the
four outbound Go channels are modelled as `pushOutbound...` events). -/
structure AmqpSender where
  RequestExchangeName : String
  AlertExchangeName : String
  InfoExchangeName : String
deriving DecidableEq, Repr

/-- The `AmqpService` struct of service.go.  `hasChannel` records whether
`service.channel` has been assigned; connection and Go channels are
modelled through events. -/
structure AmqpService where
  BrokerAddress : String
  Connected : Bool
  Receiver : AmqpReceiver
  Sender : AmqpSender
  hasChannel : Bool
deriving DecidableEq, Repr

/-- `ServiceDefaults` of service.go: the default-initialised service. -/
def ServiceDefaults : AmqpService :=
  { BrokerAddress := "localhost"
    Connected := false
    Receiver :=
      { QueueName := "my_queue"
        subscriptionCount := 0
        messageQueue := none }
    Sender :=
      { RequestExchangeName := "requests"
        AlertExchangeName := "alerts"
        InfoExchangeName := "requests" }
    hasChannel := false }

/-- Modelled from the spec: `PrepareReplyToRequest` lives in the message
module, which is not under src/.  Spec section 4.5: on timeout the service
synthesizes a Reply carrying a timeout status code and the original
request's correlation id; the reply is addressed to the request's reply
path. -/
def PrepareReplyToRequest (req : Request) (retCode : Nat) (msg : String) : Reply :=
  { Target := req.ReplyTo
    CorrId := req.CorrId
    RetCode := retCode
    ReturnMsg := msg }

/-- Modelled from the spec: the dripline timeout return code `RCErrDripTimeout`
is defined in the message module, which is not under src/.  The claims depend
only on it being the code attached to synthesized timeout replies, not on its
numeric value. -/
def RCErrDripTimeout : Nat := 101

/-- Modelled from the spec: `DecodeAndHandle` lives in the message module,
which is not under src/.  Spec section 4.1: decoding inspects the kind
discriminator and exactly one of the four supplied handler callbacks fires
per successfully decoded message, selected by kind; a decode failure is
reported to the caller as an error and no handler fires.  The decode
outcome of the delivery is supplied as the `decoded` argument; the result
pairs the chosen handler's effects with the decode-error flag. -/
def DecodeAndHandle (decoded : Option Decoded)
    (onRequest : Request → List Event) (onReply : Reply → List Event)
    (onAlert : Alert → List Event) (onInfo : Info → List Event) :
    List Event × Bool :=
  match decoded with
  | none => ([], true)
  | some (Decoded.request r) => (onRequest r, false)
  | some (Decoded.reply r) => (onReply r, false)
  | some (Decoded.alert a) => (onAlert a, false)
  | some (Decoded.info i) => (onInfo i, false)

/-- Outcome oracle for one `channel.Consume` call: `some h` means the call
succeeded and returned the delivery stream with handle `h`; `none` means it
failed. -/
structure ConsumeOracle where
  result : Option Nat
deriving DecidableEq, Repr

/-- `beginConsuming` of service.go (lines 340-357): a no-op when
`subscriptionCount` is zero; otherwise calls `channel.Consume` on the
receive queue; on failure logs critically and signals `DoneSignal <- true`;
on success installs the new stream handle in `Receiver.messageQueue`, logs,
and pushes `false` onto the control channel (`stopQueue`). -/
def beginConsuming (o : ConsumeOracle) (s : AmqpService) : AmqpService × List Event :=
  if s.Receiver.subscriptionCount = 0 then (s, [])
  else
    match o.result with
    | none =>
        (s, [Event.consume (s.Receiver.QueueName), Event.logCritical, Event.doneSignal true])
    | some h =>
        ({ s with Receiver := { s.Receiver with messageQueue := some h } },
         [Event.consume (s.Receiver.QueueName), Event.logDebug, Event.stopQueuePush false])

/-- Oracle for one `SubscribeTo...` call: outcome of the `QueueBind`
broker call and of the `Consume` call inside `beginConsuming`. -/
structure BindOracle where
  bindOk : Bool
  consume : ConsumeOracle
deriving DecidableEq, Repr

/-- The error message service.go produces when a subscribe call is made
while not connected. -/
def notConnectedMsg : String := "Service is not connected to a broker"

/-- `SubscribeToRequests` of service.go (lines 254-266): requires
`Connected`; binds the receive queue to the requests exchange with the
given routing key, increments the subscription counter, and calls
`beginConsuming`.  Result: updated service, Go `error` value, events. -/
def SubscribeToRequests (s : AmqpService) (routingKey : String) (o : BindOracle) :
    AmqpService × Option String × List Event :=
  if s.Connected = false then (s, some notConnectedMsg, [])
  else if o.bindOk = false then
    (s, some ("bind failed"),
     [Event.queueBind (s.Receiver.QueueName) routingKey (s.Sender.RequestExchangeName)])
  else
    let s1 := { s with Receiver := { s.Receiver with subscriptionCount := s.Receiver.subscriptionCount + 1 } }
    let bc := beginConsuming o.consume s1
    (bc.1, none,
     Event.queueBind (s.Receiver.QueueName) routingKey (s.Sender.RequestExchangeName)
       :: bc.2 ++ [Event.logDebug])

/-- `SubscribeToAlerts` of service.go (lines 282-294): as
`SubscribeToRequests` but binding to the alerts exchange. -/
def SubscribeToAlerts (s : AmqpService) (routingKey : String) (o : BindOracle) :
    AmqpService × Option String × List Event :=
  if s.Connected = false then (s, some notConnectedMsg, [])
  else if o.bindOk = false then
    (s, some ("bind failed"),
     [Event.queueBind (s.Receiver.QueueName) routingKey (s.Sender.AlertExchangeName)])
  else
    let s1 := { s with Receiver := { s.Receiver with subscriptionCount := s.Receiver.subscriptionCount + 1 } }
    let bc := beginConsuming o.consume s1
    (bc.1, none,
     Event.queueBind (s.Receiver.QueueName) routingKey (s.Sender.AlertExchangeName)
       :: bc.2 ++ [Event.logDebug])

/-- `SubscribeToInfos` of service.go (lines 297-309): as
`SubscribeToRequests` but binding to the infos exchange. -/
def SubscribeToInfos (s : AmqpService) (routingKey : String) (o : BindOracle) :
    AmqpService × Option String × List Event :=
  if s.Connected = false then (s, some notConnectedMsg, [])
  else if o.bindOk = false then
    (s, some ("bind failed"),
     [Event.queueBind (s.Receiver.QueueName) routingKey (s.Sender.InfoExchangeName)])
  else
    let s1 := { s with Receiver := { s.Receiver with subscriptionCount := s.Receiver.subscriptionCount + 1 } }
    let bc := beginConsuming o.consume s1
    (bc.1, none,
     Event.queueBind (s.Receiver.QueueName) routingKey (s.Sender.InfoExchangeName)
       :: bc.2 ++ [Event.logDebug])

/-- `SendReply` of service.go (lines 225-228): pushes the message onto the
outbound reply channel and unconditionally returns `nil`. -/
def SendReply (s : AmqpService) (toSend : Reply) : Option String × List Event :=
  (none, [Event.pushOutboundReply toSend])

/-- `SendAlert` of service.go (lines 231-234): pushes the message onto the
outbound alert channel and unconditionally returns `nil`. -/
def SendAlert (s : AmqpService) (toSend : Alert) : Option String × List Event :=
  (none, [Event.pushOutboundAlert toSend])

/-- `SendInfo` of service.go (lines 237-240): pushes the message onto the
outbound info channel and unconditionally returns `nil`. -/
def SendInfo (s : AmqpService) (toSend : Info) : Option String × List Event :=
  (none, [Event.pushOutboundInfo toSend])

/-- Outcome oracle for the ephemeral reply-path setup performed by
`SendRequest`: the fresh `connection.Channel()` call, the anonymous
`QueueDeclare` (whose success carries the broker-assigned queue name), the
`QueueBind`, and the `Consume` call. -/
structure ReplySetupOracle where
  channelOk : Bool
  declaredQueue : Option String
  bindOk : Bool
  consumeOk : Bool
deriving DecidableEq, Repr

/-- Which broker call of the reply-path setup failed (the Go `error`
values returned by `SendRequest`). -/
inductive SetupErr
  | declareErr
  | bindErr
  | consumeErr
deriving DecidableEq, Repr

/-- Caller-visible result of the synchronous part of `SendRequest`:
whether a non-nil reply channel was returned, the Go `error` value `e`
(`none` embeds Go `nil`), and the recorded effects. -/
structure SendRequestResult where
  replyChanReturned : Bool
  err : Option SetupErr
  events : List Event
deriving DecidableEq, Repr

/-- Synchronous body of `SendRequest` of service.go (lines 122-222).  In
order: open a fresh broker channel (on failure: log critically, signal
`DoneSignal <- true`, and return with `e` still nil); declare the
anonymous reply queue (on failure: `e = declareErr`); set
`toSend.ReplyTo` to the broker-assigned queue name and bind the queue to
the requests exchange with the queue name as routing key (on failure:
`e = bindErr`); start consuming (on failure: `e = consumeErr`); push the
request onto the outbound request channel, create the caller's reply
channel and spawn the reply-waiter goroutine (modelled separately as
`replyWaiter`). -/
def SendRequest (s : AmqpService) (toSend : Request) (o : ReplySetupOracle) :
    SendRequestResult :=
  if o.channelOk = false then
    { replyChanReturned := false
      err := none
      events := [Event.logDebug, Event.brokerChannelOpen, Event.logCritical, Event.doneSignal true] }
  else
    match o.declaredQueue with
    | none =>
        { replyChanReturned := false
          err := some SetupErr.declareErr
          events := [Event.logDebug, Event.brokerChannelOpen, Event.logDebug,
                     Event.queueDeclare (""), Event.logError] }
    | some qn =>
        if o.bindOk = false then
          { replyChanReturned := false
            err := some SetupErr.bindErr
            events := [Event.logDebug, Event.brokerChannelOpen, Event.logDebug,
                       Event.queueDeclare (""),
                       Event.queueBind qn qn (s.Sender.RequestExchangeName), Event.logError] }
        else if o.consumeOk = false then
          { replyChanReturned := false
            err := some SetupErr.consumeErr
            events := [Event.logDebug, Event.brokerChannelOpen, Event.logDebug,
                       Event.queueDeclare (""),
                       Event.queueBind qn qn (s.Sender.RequestExchangeName),
                       Event.consume qn, Event.logError] }
        else
          { replyChanReturned := true
            err := none
            events := [Event.logDebug, Event.brokerChannelOpen, Event.logDebug,
                       Event.queueDeclare (""),
                       Event.queueBind qn qn (s.Sender.RequestExchangeName),
                       Event.consume qn,
                       Event.pushOutboundRequest { toSend with ReplyTo := qn },
                       Event.logDebug] }

/-- How the reply-waiter goroutine spawned by `SendRequest` resolves:
either the timeout fired first (possible only with a positive
`replyTimeout`), or a delivery arrived on the ephemeral consumer, with the
given decode outcome. -/
inductive WaitOutcome
  | timedOut
  | delivered (decoded : Option Decoded)
deriving DecidableEq, Repr

/-- The reply-waiter goroutine of `SendRequest` (service.go lines
165-217).  On timeout: log a warning, push a synthesized timeout Reply
onto the caller's channel, then close the ephemeral broker channel.  On a
delivery: acknowledge it, run `DecodeAndHandle` (only a Reply satisfies
the caller's channel; the other kinds are logged as errors); if decoding
failed, log the error and return early — the ephemeral channel is NOT
closed on this path; otherwise close the ephemeral channel. -/
def replyWaiter (toSend : Request) (outcome : WaitOutcome) : List Event :=
  match outcome with
  | WaitOutcome.timedOut =>
      [Event.logWarning,
       Event.pushReplyChanFull
         (PrepareReplyToRequest toSend RCErrDripTimeout ("Timeout while waiting for reply")),
       Event.logDebug, Event.replyChannelClose]
  | WaitOutcome.delivered d =>
      let handled := DecodeAndHandle d
        (fun _ => [Event.logError])
        (fun r => [Event.pushReplyChanFull r])
        (fun _ => [Event.logError])
        (fun _ => [Event.logError])
      if handled.2 then Event.ackDelivery :: handled.1 ++ [Event.logError]
      else Event.ackDelivery :: handled.1 ++ [Event.logDebug, Event.replyChannelClose]

/-- Outcome oracle for one run of `channelSetupFunc`: the
`connection.Channel()` call, the receive-queue `QueueDeclare`, the
`Consume` inside `beginConsuming`, and the three `ExchangeDeclare`
calls. -/
structure SetupOracle where
  channelOk : Bool
  queueDeclareOk : Bool
  consume : ConsumeOracle
  requestExchangeOk : Bool
  alertExchangeOk : Bool
  infoExchangeOk : Bool
deriving DecidableEq, Repr

/-- The exchange-declaration tail of `channelSetupFunc` (service.go lines
430-463): declare each of the three exchanges whose name is non-empty
(any failure logs critically, signals `DoneSignal <- true` and returns
early), then register the channel-cancel and channel-close notification
feeds and log readiness to send. -/
def setupExchanges (o : SetupOracle) (s : AmqpService) : List Event :=
  if s.Sender.RequestExchangeName ≠ "" ∧ o.requestExchangeOk = false then
    [Event.exchangeDeclare (s.Sender.RequestExchangeName), Event.logCritical,
     Event.doneSignal true]
  else
    (if s.Sender.RequestExchangeName ≠ "" then
       [Event.exchangeDeclare (s.Sender.RequestExchangeName), Event.logDebug]
     else []) ++
    (if s.Sender.AlertExchangeName ≠ "" ∧ o.alertExchangeOk = false then
       [Event.exchangeDeclare (s.Sender.AlertExchangeName), Event.logCritical,
        Event.doneSignal true]
     else
       (if s.Sender.AlertExchangeName ≠ "" then
          [Event.exchangeDeclare (s.Sender.AlertExchangeName), Event.logDebug]
        else []) ++
       (if s.Sender.InfoExchangeName ≠ "" ∧ o.infoExchangeOk = false then
          [Event.exchangeDeclare (s.Sender.InfoExchangeName), Event.logCritical,
           Event.doneSignal true]
        else
          (if s.Sender.InfoExchangeName ≠ "" then
             [Event.exchangeDeclare (s.Sender.InfoExchangeName), Event.logDebug]
           else []) ++
          [Event.cancelFeedRegistered, Event.closeFeedRegistered, Event.logInfo]))

/-- `channelSetupFunc` of service.go (lines 398-464), the re-runnable
channel-setup closure: open the primary broker channel (on failure, log
critically, signal `DoneSignal <- true` and return); if a receive queue
name is configured, declare the queue (failure is fatal for the attempt:
`DoneSignal <- true` and return) and call `beginConsuming` (whose own
failure signals `DoneSignal` but does not abort the setup); then run the
exchange-declaration tail. -/
def channelSetupFunc (o : SetupOracle) (s : AmqpService) : AmqpService × List Event :=
  if o.channelOk = false then
    (s, [Event.brokerChannelOpen, Event.logCritical, Event.doneSignal true])
  else
    let s0 := { s with hasChannel := true }
    if s0.Receiver.QueueName = "" then
      (s0, Event.brokerChannelOpen :: Event.logDebug :: setupExchanges o s0)
    else if o.queueDeclareOk = false then
      (s0, [Event.brokerChannelOpen, Event.logDebug,
            Event.queueDeclare (s0.Receiver.QueueName), Event.logCritical,
            Event.doneSignal true])
    else
      let bc := beginConsuming o.consume s0
      (bc.1,
       Event.brokerChannelOpen :: Event.logDebug ::
         Event.queueDeclare (s0.Receiver.QueueName) :: Event.logDebug ::
         bc.2 ++ [Event.logInfo] ++ setupExchanges o bc.1)

/-- One value arriving at the Event Router's select (service.go lines
479-609): a control-channel value (`stopSig`), a connection-close
notification, a channel-cancel notification, a channel-close
notification, an outbound message of one of the four kinds (with the
outcome of its `Encode` call), or an inbound delivery (with its decode
outcome).  Each case records whether the Go channel was still open
(`chanOpen` in the source). -/
inductive LoopEvent
  | stopSig (chanOpen : Bool) (v : Bool)
  | connClose (chanOpen : Bool)
  | chanCancel (chanOpen : Bool) (reason : String)
  | chanClose (chanOpen : Bool)
  | outRequest (chanOpen : Bool) (r : Request) (encodeOk : Bool)
  | outReply (chanOpen : Bool) (r : Reply) (encodeOk : Bool)
  | outAlert (chanOpen : Bool) (a : Alert) (encodeOk : Bool)
  | outInfo (chanOpen : Bool) (i : Info) (encodeOk : Bool)
  | inbound (chanOpen : Bool) (decoded : Option Decoded)
deriving DecidableEq, Repr

/-- Result of servicing one select arm: the updated service, the recorded
effects, and whether the arm executed `break amqpLoop`. -/
structure StepResult where
  state : AmqpService
  events : List Event
  breakLoop : Bool
deriving Repr

/-- One iteration of the `amqpLoop` select of service.go (lines 479-609),
given the setup oracle used if `channelSetupFunc` must be re-run:
* a closed control channel, or `true` on it, breaks the loop; `false`
  (the stream-rearmed sentinel) only logs and continues;
* a connection-close notification (or its feed closing) breaks the loop;
* a channel-cancel notification re-runs `channelSetupFunc` and then
  breaks the loop unconditionally;
* a channel-close notification (or its feed closing) breaks the loop;
* an outbound message is encoded (failure: log and drop, continue) and
  published via `Message.send` (which logs and publishes with the
  message's `Target` as routing key); a closed outbound channel breaks
  the loop;
* an inbound delivery is acknowledged first, then decoded and dispatched
  by `DecodeAndHandle`: a Request, Alert or Info is pushed to the
  corresponding public inbound channel, a Reply is logged as an error and
  dropped; a decode failure is logged and the delivery dropped; either
  way the loop continues.  A closed delivery stream breaks the loop. -/
def loopStep (o : SetupOracle) (s : AmqpService) : LoopEvent → StepResult
  | LoopEvent.stopSig false _ => { state := s, events := [Event.logError], breakLoop := true }
  | LoopEvent.stopSig true v =>
      if v then { state := s, events := [Event.logInfo], breakLoop := true }
      else { state := s, events := [Event.logDebug], breakLoop := false }
  | LoopEvent.connClose false => { state := s, events := [Event.logError], breakLoop := true }
  | LoopEvent.connClose true => { state := s, events := [Event.logWarning], breakLoop := true }
  | LoopEvent.chanCancel false _ => { state := s, events := [Event.logError], breakLoop := true }
  | LoopEvent.chanCancel true _ =>
      { state := (channelSetupFunc o s).1
        events := Event.logWarning :: Event.logInfo :: (channelSetupFunc o s).2
        breakLoop := true }
  | LoopEvent.chanClose false => { state := s, events := [Event.logError], breakLoop := true }
  | LoopEvent.chanClose true => { state := s, events := [Event.logWarning], breakLoop := true }
  | LoopEvent.outRequest false _ _ => { state := s, events := [Event.logError], breakLoop := true }
  | LoopEvent.outRequest true r encodeOk =>
      if encodeOk then
        { state := s, events := [Event.logDebug, Event.logDebug, Event.publishRequest (r.Target)]
          breakLoop := false }
      else { state := s, events := [Event.logDebug, Event.logError], breakLoop := false }
  | LoopEvent.outReply false _ _ => { state := s, events := [Event.logError], breakLoop := true }
  | LoopEvent.outReply true r encodeOk =>
      if encodeOk then
        { state := s, events := [Event.logDebug, Event.logDebug, Event.publishReply (r.Target)]
          breakLoop := false }
      else { state := s, events := [Event.logDebug, Event.logError], breakLoop := false }
  | LoopEvent.outAlert false _ _ => { state := s, events := [Event.logError], breakLoop := true }
  | LoopEvent.outAlert true a encodeOk =>
      if encodeOk then
        { state := s, events := [Event.logDebug, Event.logDebug, Event.publishAlert (a.Target)]
          breakLoop := false }
      else { state := s, events := [Event.logDebug, Event.logError], breakLoop := false }
  | LoopEvent.outInfo false _ _ => { state := s, events := [Event.logError], breakLoop := true }
  | LoopEvent.outInfo true i encodeOk =>
      if encodeOk then
        { state := s, events := [Event.logDebug, Event.logDebug, Event.publishInfo (i.Target)]
          breakLoop := false }
      else { state := s, events := [Event.logDebug, Event.logError], breakLoop := false }
  | LoopEvent.inbound false _ => { state := s, events := [Event.logError], breakLoop := true }
  | LoopEvent.inbound true d =>
      let handled := DecodeAndHandle d
        (fun r => [Event.pushInboundRequest r])
        (fun _ => [Event.logError])
        (fun a => [Event.pushInboundAlert a])
        (fun i => [Event.pushInboundInfo i])
      if handled.2 then
        { state := s, events := Event.ackDelivery :: handled.1 ++ [Event.logError]
          breakLoop := false }
      else
        { state := s, events := Event.ackDelivery :: handled.1, breakLoop := false }

/-- The `amqpLoop` of service.go run over a finite script of select
outcomes: services events in order until one breaks the loop.  The third
component is `true` when the loop exited and `false` when the script ran
out with the loop still blocked in its select. -/
def amqpLoop (o : SetupOracle) (s : AmqpService) :
    List LoopEvent → AmqpService × List Event × Bool
  | [] => (s, [], false)
  | e :: rest =>
      let r := loopStep o s e
      if r.breakLoop then (r.state, r.events, true)
      else
        let t := amqpLoop o r.state rest
        (t.1, r.events ++ t.2.1, t.2.2)

/-- Oracle for the two `amqp.Dial` attempts of `runAmqpService`. -/
structure DialOracle where
  firstOk : Bool
  secondOk : Bool
deriving DecidableEq, Repr

/-- The dial phase of `runAmqpService` (service.go lines 370-381): dial
once; on failure log a warning, sleep 10 seconds, and dial exactly once
more; a second failure logs critically and signals `DoneSignal <- true`.
Returns whether a connection was obtained, with the recorded events. -/
def dialPhase (dial : DialOracle) : Bool × List Event :=
  if dial.firstOk then (true, [Event.dial])
  else if dial.secondOk then
    (true, [Event.dial, Event.logWarning, Event.sleepSeconds 10, Event.logDebug, Event.dial])
  else
    (false, [Event.dial, Event.logWarning, Event.sleepSeconds 10, Event.logDebug, Event.dial,
             Event.logCritical, Event.doneSignal true])

/-- How a run of `runAmqpService` ended: the dial phase failed (the
function returned before registering any deferred teardown), the script
ran out with the Event Router still blocked, or the router exited and the
function returned through its deferred teardown. -/
inductive RunOutcome
  | dialFailed
  | blocked
  | stopped
deriving DecidableEq, Repr

/-- The deferred teardown of `runAmqpService`.  Go runs deferred calls in
last-in-first-out order on return: the queue-delete closure (registered
last, line 469), then `service.channel.Close()` (line 468), then
`connection.Close()` (line 382). -/
def teardownEvents (queueName : String) : List Event :=
  [Event.queueDelete queueName, Event.channelClose, Event.connectionClose]

/-- The part of `runAmqpService` after a successful dial (service.go
lines 382-614): mark `Connected`, register the connection-close feed, run
`channelSetupFunc` once (even a failed setup falls through), register the
remaining deferred teardown, log, signal `DoneSignal <- false`, and run
the Event Router.  When the router exits, `DoneSignal <- true` is sent
(line 612) and then the function returns, running the deferred teardown. -/
def routerPhase (o : SetupOracle) (s1 : AmqpService) (script : List LoopEvent)
    (acc : List Event) : AmqpService × List Event × RunOutcome :=
  match amqpLoop o (channelSetupFunc o s1).1 script with
  | (sEnd, evs, true) =>
      (sEnd,
       acc ++ [Event.closeFeedRegistered] ++ (channelSetupFunc o s1).2
         ++ [Event.logNotice, Event.doneSignal false] ++ evs
         ++ Event.doneSignal true :: teardownEvents (sEnd.Receiver.QueueName),
       RunOutcome.stopped)
  | (sEnd, evs, false) =>
      (sEnd,
       acc ++ [Event.closeFeedRegistered] ++ (channelSetupFunc o s1).2
         ++ [Event.logNotice, Event.doneSignal false] ++ evs,
       RunOutcome.blocked)

/-- `runAmqpService` of service.go (lines 363-614), driven by the dial
oracle, the setup oracle and a finite script of select outcomes.
(`fillDriplineSenderInfo` only fills provenance fields and at worst logs
a warning; it is not modelled.) -/
def runAmqpService (dial : DialOracle) (o : SetupOracle) (s : AmqpService)
    (script : List LoopEvent) : AmqpService × List Event × RunOutcome :=
  match dialPhase dial with
  | (true, devs) =>
      routerPhase o { s with Connected := true } script (devs ++ [Event.logDebug])
  | (false, devs) => (s, devs, RunOutcome.dialFailed)

/-- First value received on `DoneSignal`, the value the synchronous
`StartService` caller blocks on. -/
def firstDoneSignal : List Event → Option Bool
  | [] => none
  | Event.doneSignal b :: _ => some b
  | _ :: rest => firstDoneSignal rest

/-- The `StartService` method of service.go (lines 92-102): start
`runAmqpService` in a goroutine and block on the first `DoneSignal`
value; if it is `true`, log critically ("Service did not start").  The
method has no return value; the embedding returns the service state and
the combined events. -/
def StartServiceMethod (dial : DialOracle) (o : SetupOracle) (s : AmqpService)
    (script : List LoopEvent) : AmqpService × List Event :=
  let run := runAmqpService dial o s script
  match firstDoneSignal run.2.1 with
  | some true => (run.1, run.2.1 ++ [Event.logCritical])
  | _ => (run.1, run.2.1)

/-- The package-level `StartService` function of service.go (lines
106-113): build the defaults, override broker address and queue name,
call the `StartService` method, and return the service pointer.  The Go
function returns only `*AmqpService` — it has no error result. -/
def StartServiceFn (brokerAddress : String) (queueName : String) (dial : DialOracle)
    (o : SetupOracle) (script : List LoopEvent) : AmqpService × List Event :=
  StartServiceMethod dial o
    { ServiceDefaults with
      BrokerAddress := brokerAddress
      Receiver := { ServiceDefaults.Receiver with QueueName := queueName } }
    script

/-- Sample setup oracle: every broker call succeeds. -/
def oracleAllOk : SetupOracle :=
  { channelOk := true
    queueDeclareOk := true
    consume := { result := some 1 }
    requestExchangeOk := true
    alertExchangeOk := true
    infoExchangeOk := true }

/-- Sample subscribe oracle: bind and consume succeed. -/
def bindOracleAllOk : BindOracle := { bindOk := true, consume := { result := some 1 } }

/-- Sample service with no subscriptions (the defaults). -/
def svcZeroSubs : AmqpService := ServiceDefaults

/-- Sample service with one subscription. -/
def svcOneSub : AmqpService :=
  { ServiceDefaults with
    Receiver := { ServiceDefaults.Receiver with subscriptionCount := 1 } }

/-- Sample connected service. -/
def svcConn : AmqpService := { ServiceDefaults with Connected := true }

/-- Sample request. -/
def reqExample : Request := { Target := "svc.cmd", CorrId := "corr-1", ReplyTo := "" }

/-- Sample reply. -/
def replyExample : Reply :=
  { Target := "client.q", CorrId := "corr-1", RetCode := 0, ReturnMsg := "ok" }

/-- Sample routing key. -/
def keyExample : String := "q.#"

/-- Sample broker address. -/
def brokerExample : String := "amqp://broker"

/-- Sample queue name. -/
def queueExample : String := "q"

/-- Reply-path oracle in which opening the fresh broker channel fails. -/
def chanFailOracle : ReplySetupOracle :=
  { channelOk := false, declaredQueue := some ("amq.gen-1"), bindOk := true, consumeOk := true }

/-- Reply-path oracle in which declaring the anonymous reply queue fails. -/
def declareFailOracle : ReplySetupOracle :=
  { channelOk := true, declaredQueue := none, bindOk := true, consumeOk := true }

/-- Helper: when `routerPhase` reports `stopped`, its event trace ends with
`DoneSignal <- true` followed by the deferred teardown in order: delete the
receive queue, close the primary channel, close the connection. -/
theorem routerPhase_stopped (o : SetupOracle) (s1 : AmqpService) (script : List LoopEvent)
    (acc : List Event)
    (h : (routerPhase o s1 script acc).2.2 = RunOutcome.stopped) :
    ∃ p, (routerPhase o s1 script acc).2.1
      = p ++ [Event.doneSignal true,
              Event.queueDelete ((routerPhase o s1 script acc).1.Receiver.QueueName),
              Event.channelClose, Event.connectionClose] := by
  rcases hA : amqpLoop o (channelSetupFunc o s1).1 script with ⟨sEnd, evs, b⟩
  cases b
  · exfalso
    simp only [routerPhase, hA] at h
    exact RunOutcome.noConfusion h
  · refine ⟨acc ++ [Event.closeFeedRegistered] ++ (channelSetupFunc o s1).2
      ++ [Event.logNotice, Event.doneSignal false] ++ evs, ?_⟩
    simp only [routerPhase, hA, teardownEvents, List.append_assoc, List.cons_append,
      List.nil_append]

/-- Claim C10: for every message, `SendReply`, `SendAlert` and `SendInfo`
unconditionally return a nil error; no failure is observable through their
declared error return value, and the only effect is enqueueing the message
on the corresponding outbound channel (a full buffer blocks the Go send
rather than producing an error; blocking has no error observable here). -/
theorem send_enqueue_always_nil_error (s : AmqpService) (r : Reply) (a : Alert) (i : Info) :
    (SendReply s r).1 = none ∧ (SendReply s r).2 = [Event.pushOutboundReply r]
    ∧ (SendAlert s a).1 = none ∧ (SendAlert s a).2 = [Event.pushOutboundAlert a]
    ∧ (SendInfo s i).1 = none ∧ (SendInfo s i).2 = [Event.pushOutboundInfo i] :=
  ⟨rfl, rfl, rfl, rfl, rfl, rfl⟩

/-- Claim C9: each of `SubscribeToRequests`, `SubscribeToAlerts` and
`SubscribeToInfos`, called with any routing key while the service is not
connected, returns the "not connected" error and performs no broker call:
the state (hence the subscription count and the stream handle) is
unchanged and the event list is empty (no bind, no consume, no arming). -/
theorem subscribe_not_connected_no_broker_call (s : AmqpService) (key : String)
    (o : BindOracle) (h : s.Connected = false) :
    SubscribeToRequests s key o = (s, some notConnectedMsg, [])
    ∧ SubscribeToAlerts s key o = (s, some notConnectedMsg, [])
    ∧ SubscribeToInfos s key o = (s, some notConnectedMsg, []) := by
  unfold SubscribeToRequests SubscribeToAlerts SubscribeToInfos
  rw [h]
  exact ⟨rfl, rfl, rfl⟩

/-- Witness for C9 at the default (unconnected) service. -/
theorem subscribe_not_connected_no_broker_call_witness :
    SubscribeToRequests ServiceDefaults keyExample bindOracleAllOk
      = (ServiceDefaults, some notConnectedMsg, [])
    ∧ SubscribeToAlerts ServiceDefaults keyExample bindOracleAllOk
      = (ServiceDefaults, some notConnectedMsg, [])
    ∧ SubscribeToInfos ServiceDefaults keyExample bindOracleAllOk
      = (ServiceDefaults, some notConnectedMsg, []) :=
  subscribe_not_connected_no_broker_call ServiceDefaults keyExample bindOracleAllOk rfl

/-- Claim C4: whenever the channel-cancel feed delivers a value while the
Event Router is running, the router re-runs `channelSetupFunc` once and
then exits the loop, whatever the re-setup outcome (the setup oracle `o`
is arbitrary); the remaining script `rest` is never consumed — the loop is
not re-entered. -/
theorem chanCancel_resetup_once_then_exit (o : SetupOracle) (s : AmqpService)
    (reason : String) (rest : List LoopEvent) :
    amqpLoop o s (LoopEvent.chanCancel true reason :: rest)
      = ((channelSetupFunc o s).1,
         Event.logWarning :: Event.logInfo :: (channelSetupFunc o s).2, true) :=
  rfl

/-- Claim C5 (amended): when the broker closes the connection the Event
Router exits — both inbound and outbound channels cease being serviced —
but the service state is unchanged: in particular the `Connected` flag is
not set to false (the code never resets it). -/
theorem connClose_exits_connected_unchanged (o : SetupOracle) (s : AmqpService)
    (chanOpen : Bool) :
    (loopStep o s (LoopEvent.connClose chanOpen)).breakLoop = true
    ∧ (loopStep o s (LoopEvent.connClose chanOpen)).state = s := by
  cases chanOpen
  · exact ⟨rfl, rfl⟩
  · exact ⟨rfl, rfl⟩

/-- Counterexample to C5 as stated: a connection-close notification on a
connected service exits the router but leaves `Connected = true`; the
claim says the liveness flag becomes false. -/
theorem connClose_leaves_connected_true :
    (loopStep oracleAllOk svcConn (LoopEvent.connClose true)).state.Connected = true
    ∧ (loopStep oracleAllOk svcConn (LoopEvent.connClose true)).breakLoop = true :=
  ⟨rfl, rfl⟩

/-- Claim C7: every delivery received by the Event Router is acknowledged
exactly once and before decoding, regardless of decode outcome, and the
loop continues with the service state unchanged; on successful decode
exactly one handler fires by kind — a Request, Alert or Info is pushed to
its inbound channel, a Reply is logged as an error and dropped — and a
decode failure is logged with the delivery dropped (the single
acknowledgement means no redelivery).  The event list equality exhibits
the acknowledgement first and exactly once in every case. -/
theorem inbound_ack_once_then_dispatch (o : SetupOracle) (s : AmqpService)
    (d : Option Decoded) :
    (loopStep o s (LoopEvent.inbound true d)).breakLoop = false
    ∧ (loopStep o s (LoopEvent.inbound true d)).state = s
    ∧ (loopStep o s (LoopEvent.inbound true d)).events
      = (match d with
         | none => [Event.ackDelivery, Event.logError]
         | some (Decoded.request r) => [Event.ackDelivery, Event.pushInboundRequest r]
         | some (Decoded.reply _) => [Event.ackDelivery, Event.logError]
         | some (Decoded.alert a) => [Event.ackDelivery, Event.pushInboundAlert a]
         | some (Decoded.info i) => [Event.ackDelivery, Event.pushInboundInfo i]) := by
  rcases d with _ | d
  · exact ⟨rfl, rfl, rfl⟩
  · cases d
    · exact ⟨rfl, rfl, rfl⟩
    · exact ⟨rfl, rfl, rfl⟩
    · exact ⟨rfl, rfl, rfl⟩
    · exact ⟨rfl, rfl, rfl⟩

/-- Claim C2: the reply-waiter helper of `SendRequest` closes the
ephemeral broker channel on the timeout path and on the
successful-decode path, but NOT on the decode-failure path: there the
helper returns right after logging the decode error, before the close
call, so the ephemeral channel (and its auto-delete queue) leaks.  This
contradicts the claim and the code's own comment that the reply channel
is closed once the wait resolves. -/
theorem replyWaiter_decode_failure_skips_close :
    replyWaiter reqExample (WaitOutcome.delivered none) = [Event.ackDelivery, Event.logError]
    ∧ Event.replyChannelClose ∉ replyWaiter reqExample (WaitOutcome.delivered none)
    ∧ Event.replyChannelClose ∈ replyWaiter reqExample WaitOutcome.timedOut
    ∧ Event.replyChannelClose ∈
        replyWaiter reqExample (WaitOutcome.delivered (some (Decoded.reply replyExample))) := by
  refine ⟨rfl, ?_, ?_, ?_⟩
  · decide
  · decide
  · decide

/-- Claim C1 (amended): a failure to declare, bind or start consuming on
the ephemeral reply queue makes `SendRequest` return a non-nil error
synchronously (and no reply channel); a failure to open the fresh broker
channel, however, returns a nil error — the call logs critically, signals
`DoneSignal <- true`, and returns a nil reply channel with `e` unset. -/
theorem sendRequest_setup_failure_sync_error (s : AmqpService) (toSend : Request)
    (o : ReplySetupOracle) :
    (o.channelOk = true →
      (o.declaredQueue = none ∨ o.bindOk = false ∨ o.consumeOk = false) →
      (SendRequest s toSend o).err.isSome = true
      ∧ (SendRequest s toSend o).replyChanReturned = false)
    ∧ (o.channelOk = false →
      (SendRequest s toSend o).err = none
      ∧ (SendRequest s toSend o).replyChanReturned = false
      ∧ (SendRequest s toSend o).events.getLast? = some (Event.doneSignal true)) := by
  obtain ⟨co, dq, bo, cs⟩ := o
  constructor
  · rintro rfl hfail
    cases dq with
    | none => exact ⟨rfl, rfl⟩
    | some qn =>
        cases bo with
        | false => exact ⟨rfl, rfl⟩
        | true =>
            cases cs with
            | false => exact ⟨rfl, rfl⟩
            | true =>
                rcases hfail with h | h | h
                · exact Option.noConfusion h
                · exact Bool.noConfusion h
                · exact Bool.noConfusion h
  · rintro rfl
    exact ⟨rfl, rfl, rfl⟩

/-- Witness for C1 at concrete inputs: a declare failure yields a non-nil
error; a channel-open failure yields a nil error. -/
theorem sendRequest_setup_failure_sync_error_witness :
    (SendRequest svcConn reqExample declareFailOracle).err.isSome = true
    ∧ (SendRequest svcConn reqExample chanFailOracle).err = none :=
  ⟨((sendRequest_setup_failure_sync_error svcConn reqExample declareFailOracle).1 rfl
      (Or.inl rfl)).1,
   ((sendRequest_setup_failure_sync_error svcConn reqExample chanFailOracle).2 rfl).1⟩

/-- Counterexample to C1 as stated: when opening the fresh broker channel
fails, `SendRequest` returns a nil error (`e` is never assigned on that
path) together with a nil reply channel, signaling `DoneSignal <- true`
instead; the claim says every reply-path setup failure — the fresh
channel included — is returned as a non-nil error. -/
theorem sendRequest_channel_open_failure_returns_no_error :
    (SendRequest svcConn reqExample chanFailOracle).err = none
    ∧ (SendRequest svcConn reqExample chanFailOracle).replyChanReturned = false
    ∧ Event.doneSignal true ∈ (SendRequest svcConn reqExample chanFailOracle).events := by
  refine ⟨rfl, rfl, ?_⟩
  decide

/-- Claim C8 (amended): with zero subscriptions `beginConsuming` is a
no-op (no broker call, no state change, no sentinel); with at least one
subscription and a successful `Consume` it installs the fresh delivery
stream as the receiver's handle and pushes the `false` sentinel onto the
control channel; and the Event Router services that `false` sentinel
without exiting the loop.  (When `Consume` fails it instead reports via
`DoneSignal` and neither installs a handle nor pushes a sentinel.) -/
theorem beginConsuming_arming (o : ConsumeOracle) (s : AmqpService) :
    (s.Receiver.subscriptionCount = 0 → beginConsuming o s = (s, []))
    ∧ (∀ h : Nat, s.Receiver.subscriptionCount ≠ 0 → o.result = some h →
        beginConsuming o s
          = ({ s with Receiver := { s.Receiver with messageQueue := some h } },
             [Event.consume (s.Receiver.QueueName), Event.logDebug,
              Event.stopQueuePush false]))
    ∧ (∀ o2 : SetupOracle, ∀ s2 : AmqpService,
        loopStep o2 s2 (LoopEvent.stopSig true false)
          = { state := s2, events := [Event.logDebug], breakLoop := false }) := by
  refine ⟨fun h0 => ?_, fun h hne hr => ?_, fun o2 s2 => rfl⟩
  · simp [beginConsuming, h0]
  · simp [beginConsuming, hne, hr]

/-- Witness for C8: the no-op case at zero subscriptions and the
install-and-push case at one subscription with a successful consume. -/
theorem beginConsuming_arming_witness :
    beginConsuming { result := some 7 } svcZeroSubs = (svcZeroSubs, [])
    ∧ beginConsuming { result := some 7 } svcOneSub
      = ({ svcOneSub with
            Receiver := { svcOneSub.Receiver with messageQueue := some 7 } },
         [Event.consume (svcOneSub.Receiver.QueueName), Event.logDebug,
          Event.stopQueuePush false]) :=
  ⟨(beginConsuming_arming { result := some 7 } svcZeroSubs).1 rfl,
   (beginConsuming_arming { result := some 7 } svcOneSub).2.1 7 (by decide) rfl⟩

/-- Counterexample to C8 as stated: with one subscription and a failing
`Consume`, `beginConsuming` installs no stream handle and pushes no
`false` sentinel — it signals `DoneSignal <- true` instead; the claim
says every invocation with a nonzero subscription count installs the
fresh stream and pushes the sentinel. -/
theorem beginConsuming_consume_failure_no_arm :
    (beginConsuming { result := none } svcOneSub).1.Receiver.messageQueue = none
    ∧ Event.stopQueuePush false ∉ (beginConsuming { result := none } svcOneSub).2
    ∧ Event.doneSignal true ∈ (beginConsuming { result := none } svcOneSub).2 := by
  refine ⟨rfl, ?_, ?_⟩
  · decide
  · decide

/-- Claim C3 (amended): on any exit of the Event Router the teardown runs
as delete the receive queue, close the primary channel, close the
connection, in that order — but `DoneSignal <- true` is signaled BEFORE
that teardown, not after: the signal on line 612 executes first and the
deferred teardown runs as the function returns.  The trace of every
stopped run ends with exactly `DoneSignal <- true` followed by the three
teardown events in order. -/
theorem router_exit_teardown_after_done (dial : DialOracle) (o : SetupOracle)
    (s : AmqpService) (script : List LoopEvent)
    (h : (runAmqpService dial o s script).2.2 = RunOutcome.stopped) :
    ∃ p, (runAmqpService dial o s script).2.1
      = p ++ [Event.doneSignal true,
              Event.queueDelete ((runAmqpService dial o s script).1.Receiver.QueueName),
              Event.channelClose, Event.connectionClose] := by
  rcases hD : dialPhase dial with ⟨ok, devs⟩
  cases ok
  · exfalso
    simp only [runAmqpService, hD] at h
    exact RunOutcome.noConfusion h
  · have h2 : (routerPhase o { s with Connected := true } script
        (devs ++ [Event.logDebug])).2.2 = RunOutcome.stopped := by
      simpa only [runAmqpService, hD] using h
    have h3 := routerPhase_stopped o { s with Connected := true } script
      (devs ++ [Event.logDebug]) h2
    simpa only [runAmqpService, hD] using h3

/-- Witness for C3: a concrete stopped run (successful dial and setup,
then a graceful stop). -/
theorem router_exit_teardown_after_done_witness :
    ∃ p, (runAmqpService { firstOk := true, secondOk := true } oracleAllOk svcZeroSubs
            [LoopEvent.stopSig true true]).2.1
      = p ++ [Event.doneSignal true,
              Event.queueDelete ((runAmqpService { firstOk := true, secondOk := true }
                oracleAllOk svcZeroSubs [LoopEvent.stopSig true true]).1.Receiver.QueueName),
              Event.channelClose, Event.connectionClose] :=
  router_exit_teardown_after_done { firstOk := true, secondOk := true } oracleAllOk
    svcZeroSubs [LoopEvent.stopSig true true] (by decide)

/-- Counterexample to C3 as stated: in a concrete graceful-stop run the
`DoneSignal <- true` event occurs strictly before the queue-delete event;
the claim says `DoneSignal <- true` is signaled only after the teardown. -/
theorem done_signaled_before_teardown :
    ((runAmqpService { firstOk := true, secondOk := true } oracleAllOk svcZeroSubs
        [LoopEvent.stopSig true true]).2.1).indexOf (Event.doneSignal true)
      < ((runAmqpService { firstOk := true, secondOk := true } oracleAllOk svcZeroSubs
        [LoopEvent.stopSig true true]).2.1).indexOf (Event.queueDelete ("my_queue")) := by
  decide

/-- Claim C6 (amended): with both dial attempts failing, the service
dials exactly twice with a fixed 10-second backoff between the attempts,
reports the failure exactly once via `DoneSignal`, and performs no
further retries whatever else the script would offer; the synchronous
start call then unblocks and returns the service handle with NO error
value — `StartService` has no error result and logs a critical message
instead. -/
theorem start_double_dial_failure (addr : String) (qn : String) (o : SetupOracle)
    (script : List LoopEvent) :
    (StartServiceFn addr qn { firstOk := false, secondOk := false } o script).2
      = [Event.dial, Event.logWarning, Event.sleepSeconds 10, Event.logDebug, Event.dial,
         Event.logCritical, Event.doneSignal true, Event.logCritical]
    ∧ ((StartServiceFn addr qn { firstOk := false, secondOk := false } o script).2).count
        Event.dial = 2
    ∧ ((StartServiceFn addr qn { firstOk := false, secondOk := false } o script).2).count
        (Event.doneSignal true) = 1
    ∧ (StartServiceFn addr qn { firstOk := false, secondOk := false } o script).1.Connected
        = false :=
  ⟨rfl, rfl, rfl, rfl⟩

/-- Counterexample to C6 as stated: the complete caller-visible outcome of
the package-level `StartService` at a concrete double-dial-failure input
is the (non-nil) service handle plus the recorded events — the function's
return carries no error value anywhere, while the claim says the
synchronous start call returns an error to the caller. -/
theorem start_double_dial_failure_concrete :
    StartServiceFn brokerExample queueExample { firstOk := false, secondOk := false }
        oracleAllOk []
      = ({ ServiceDefaults with
            BrokerAddress := brokerExample
            Receiver := { ServiceDefaults.Receiver with QueueName := queueExample } },
         [Event.dial, Event.logWarning, Event.sleepSeconds 10, Event.logDebug, Event.dial,
          Event.logCritical, Event.doneSignal true, Event.logCritical]) :=
  rfl

end Dripline
